import Mathlib

/-!
# Verification of the drive-relay backend (`app.py`)

Shallow embedding of the fetch/normalize/cache pipeline, the image proxy,
the multi-format tabular fetcher and the status surface, together with
proofs of the specification's claims about them.

Conventions of the embedding:
* wall-clock instants are integers (`Int`); the code only compares
  differences of instants against the TTL constant;
* each upstream HTTP interaction of one request is passed in as an explicit
  oracle value (`Except String _` / `Option _`), `.error`/`none` standing for
  any transport failure, timeout, non-success status or unparseable body;
* the Python dict `images` is modelled as a function `Nat → Option ImageProj`;
* Python's stable `list.sort(key=...)` is modelled by `List.insertionSort`
  on the key order, which is proved below to be sorted and stable, the two
  properties that determine Python's sort extensionally.
-/

/-- One item of the upstream listing response
(fields requested: `id,name,mimeType,modifiedTime`). -/
structure RawFile where
  id : String
  name : String
  mimeType : String
  modifiedTime : String
deriving Repr, DecidableEq

/-- One element of the `image_files` list built in `get_drive_files`. -/
structure ImageFile where
  id : String
  name : String
  index : Nat
  url : String
  proxy_url : String
  modified : String
deriving Repr, DecidableEq

/-- The per-index projection stored in the `images` mapping by
`discover_images` (all fields of `ImageFile` except `index`). -/
structure ImageProj where
  id : String
  name : String
  url : String
  proxy_url : String
  modified : String
deriving Repr, DecidableEq

/-- `re.search(r'(\d+)', name)`: the first maximal run of decimal digits of
the character list, if any. -/
def firstDigitRun : List Char → Option (List Char)
  | [] => none
  | c :: rest =>
    if c.isDigit then some (c :: rest.takeWhile Char.isDigit)
    else firstDigitRun rest

/-- Numeric value of a decimal digit character. -/
def digitVal (c : Char) : Nat := c.toNat - 48

/-- `int(match.group(1))`: decimal parse of a digit run
(left fold `n ↦ 10*n + digit`). -/
def digitsToNat (ds : List Char) : Nat :=
  ds.foldl (fun n c => 10 * n + digitVal c) 0

/-- Index extraction from a file name: first digit run, decimally parsed. -/
def extractIndex (name : String) : Option Nat :=
  (firstDigitRun name.data).map digitsToNat

/-- The two URL templates derived from a file id in `get_drive_files`. -/
def driveDownloadUrl (id : String) : String :=
  "https://drive.google.com/uc?id=" ++ id ++ "&export=download"

def proxyPath (id : String) : String :=
  "/api/proxy-image/" ++ id

/-- The record appended to `image_files` for a kept upstream record. -/
def mkImageFile (f : RawFile) (idx : Nat) : ImageFile :=
  { id := f.id
    name := f.name
    index := idx
    url := driveDownloadUrl f.id
    proxy_url := proxyPath f.id
    modified := f.modifiedTime }

/-- `mimeType.startswith('image/')`, computed on the character list. -/
def startsWithImage (mt : String) : Bool :=
  List.isPrefixOf "image/".data mt.data

/-- The body of the filtering loop of `get_drive_files`: keep a record iff
its `mimeType` starts with `image/` and its name has a digit run. -/
def toImage (f : RawFile) : Option ImageFile :=
  if startsWithImage f.mimeType then
    (extractIndex f.name).map (mkImageFile f)
  else none

/-- The unsorted `image_files` list produced by the loop. -/
def filterImages (files : List RawFile) : List ImageFile :=
  files.filterMap toImage

/-- The sort key order of `image_files.sort(key=lambda x: x['index'])`. -/
def idxLe (a b : ImageFile) : Prop := a.index ≤ b.index

instance : DecidableRel idxLe := fun a b => inferInstanceAs (Decidable (a.index ≤ b.index))

instance : IsTotal ImageFile idxLe := ⟨fun a b => Nat.le_total a.index b.index⟩

instance : IsTrans ImageFile idxLe := ⟨fun _ _ _ h h2 => Nat.le_trans h h2⟩

/-- Filter + index + stable sort: the pure part of `get_drive_files`
(spec: `filterAndIndex`). -/
def filterAndIndex (files : List RawFile) : List ImageFile :=
  List.insertionSort idxLe (filterImages files)

/-- The projection placed into the `images` dict by `discover_images`. -/
def mkProj (f : ImageFile) : ImageProj :=
  { id := f.id, name := f.name, url := f.url,
    proxy_url := f.proxy_url, modified := f.modified }

/-- The loop `for file in files: image_mapping[file['index']] = {...}`,
with the dict modelled as a function. -/
def buildMapping (files : List ImageFile) : Nat → Option ImageProj :=
  files.foldl (fun m f => fun n => if n = f.index then some (mkProj f) else m n)
    (fun _ => none)

/-- The module-level `cache` dict (`data`, `timestamp`, `folder_id`). -/
structure Cache where
  data : Option (List ImageFile)
  timestamp : Int
  folder_id : Option String
deriving Repr, DecidableEq

/-- `cache = {'data': None, 'timestamp': 0, 'folder_id': None}`. -/
def initialCache : Cache :=
  { data := none, timestamp := 0, folder_id := none }

/-- Python truthiness of `cache['data']`: `None` and `[]` are falsy. -/
def cacheDataTruthy : Option (List ImageFile) → Bool
  | none => false
  | some l => !l.isEmpty

/-- CACHE_DURATION = 30 seconds. -/
def CACHE_DURATION : Int := 30

/-- The cache-hit condition of `get_drive_files`:
`cache['data'] and cache['folder_id'] == folder_id and
 current_time - cache['timestamp'] < CACHE_DURATION`. -/
def cacheHit (c : Cache) (folder_id : String) (now : Int) : Bool :=
  cacheDataTruthy c.data && (c.folder_id == some folder_id)
    && decide (now - c.timestamp < CACHE_DURATION)

/-- What one invocation of `get_drive_files` produces: the returned value
(`None` on failure), the cache state after the call, and whether the
upstream listing request was issued. -/
structure FetchOutcome where
  result : Option (List ImageFile)
  cache : Cache
  usedUpstream : Bool
deriving Repr, DecidableEq

/-- `get_drive_files(folder_id)`.  `upstream` is the outcome the single
listing request would have: `.ok files` for a parsed 2xx response,
`.error msg` for any exception (network failure, timeout, non-2xx status
raised by `raise_for_status`, unparseable body). -/
def get_drive_files (folder_id : String) (now : Int)
    (upstream : Except String (List RawFile)) (c : Cache) : FetchOutcome :=
  if cacheHit c folder_id now then
    { result := c.data, cache := c, usedUpstream := false }
  else
    match upstream with
    | .error _ => { result := none, cache := c, usedUpstream := true }
    | .ok files =>
      let image_files := filterAndIndex files
      { result := some image_files
        cache := { data := some image_files, timestamp := now,
                   folder_id := some folder_id }
        usedUpstream := true }

/-- The JSON body (and status) returned by the `/api/discover` route. -/
inductive DiscoverResult where
  | err (message : String) (status : Nat)
  | ok (images : Nat → Option ImageProj) (total_found : Nat)
      (folder_id : String) (timestamp : Int)

def DiscoverResult.isOk : DiscoverResult → Bool
  | .ok _ _ _ _ => true
  | .err _ _ => false

def DiscoverResult.images : DiscoverResult → Option (Nat → Option ImageProj)
  | .ok m _ _ _ => some m
  | .err _ _ => none

/-- Error message and HTTP status of an error response, `none` on success
(used to compare error envelopes decidably). -/
def DiscoverResult.errInfo : DiscoverResult → Option (String × Nat)
  | .ok _ _ _ _ => none
  | .err m s => some (m, s)

def noFolderMsg : String := "No folder ID provided"

def fetchFailMsg : String := "Failed to fetch files from Google Drive"

/-- Outcome of one `/api/discover/<folder_id>` request. -/
structure DiscoverOutcome where
  response : DiscoverResult
  cache : Cache
  usedUpstream : Bool

/-- `discover_images(folder_id)`. -/
def discover_images (folder_id : String) (now : Int)
    (upstream : Except String (List RawFile)) (c : Cache) : DiscoverOutcome :=
  if folder_id = "" then
    { response := .err noFolderMsg 400, cache := c, usedUpstream := false }
  else
    let o := get_drive_files folder_id now upstream c
    match o.result with
    | none =>
      { response := .err fetchFailMsg 500
        cache := o.cache, usedUpstream := o.usedUpstream }
    | some files =>
      { response := .ok (buildMapping files) files.length folder_id now
        cache := o.cache, usedUpstream := o.usedUpstream }

/-! ## Tabular fallback fetcher (`get_sheets_data`) -/

/-- What one HTTP attempt of `get_sheets_data` sees when the request itself
did not raise: declared content type, status code, whether
`response.encoding` is already `utf-8`, the transport-decoded `text`, and
`content.decode('utf-8')` (`none` when that decode raises). -/
structure HttpResponse where
  contentType : String
  statusCode : Nat
  encodingIsUtf8 : Bool
  text : String
  utf8Content : Option String
deriving Repr, DecidableEq

/-- Substring containment on character lists (Python's `in` on strings). -/
def listContainsSub (pat : List Char) : List Char → Bool
  | [] => pat.isEmpty
  | c :: rest => List.isPrefixOf pat (c :: rest) || listContainsSub pat rest

/-- Python `str.strip()` on the character list. -/
def stripChars (l : List Char) : List Char :=
  ((l.dropWhile Char.isWhitespace).reverse.dropWhile Char.isWhitespace).reverse

def stripString (s : String) : String :=
  ⟨stripChars s.data⟩

/-- `'text/html' in response.headers.get('content-type','').lower()`. -/
def htmlTyped (r : HttpResponse) : Bool :=
  listContainsSub "text/html".data (r.contentType.data.map Char.toLower)

/-- `response.raise_for_status()` raises exactly for 4xx/5xx statuses. -/
def statusFailed (r : HttpResponse) : Bool :=
  decide (400 ≤ r.statusCode) && decide (r.statusCode < 600)

/-- `csv_text = response.text.strip()`, then overwritten by
`response.content.decode('utf-8')` when the transport encoding is not
UTF-8 and that decode succeeds. -/
def decodeCsvText (r : HttpResponse) : String :=
  if r.encodingIsUtf8 then stripString r.text
  else
    match r.utf8Content with
    | some s => s
    | none => stripString r.text

/-- `csv_text and (',' in csv_text or '\n' in csv_text)`. -/
def csvLooking (s : String) : Bool :=
  !s.data.isEmpty && (s.data.contains ',' || s.data.contains '\n')

/-- One iteration of the format loop: `some csv_text` when this attempt
returns, `none` when the loop continues (request raised, HTML content type,
`raise_for_status` raised, or the body does not look like CSV). -/
def tryFormat (r : Option HttpResponse) : Option String :=
  match r with
  | none => none
  | some resp =>
    if htmlTyped resp then none
    else if statusFailed resp then none
    else
      let csv := decodeCsvText resp
      if csvLooking csv then some csv else none

/-- The four fixed URL templates, in source order. -/
def url_formats (sheet_id : String) : List String :=
  [ "https://docs.google.com/spreadsheets/d/e/" ++ sheet_id ++ "/pub?output=csv",
    "https://docs.google.com/spreadsheets/d/" ++ sheet_id ++ "/export?format=csv&gid=0",
    "https://docs.google.com/spreadsheets/d/" ++ sheet_id ++ "/pub?output=csv",
    "https://docs.google.com/spreadsheets/d/" ++ sheet_id ++ "/gviz/tq?tqx=out:csv" ]

/-- JSON body (plus status) of the `/api/sheets` route; the success-path
`timestamp` field is omitted (wall-clock only, unconstrained by the spec). -/
structure SheetsResult where
  success : Bool
  csv_data : Option String
  url_used : Option String
  error : Option String
  tried_formats : Option Nat
  status : Nat
deriving Repr, DecidableEq

def allFailedMsg : String :=
  "All URL formats failed. Make sure sheet is published to web as CSV"

/-- The `for i, sheets_url in enumerate(url_formats)` loop: first success
wins; `oracle i` is the response of attempt `i`. -/
def tryLoop (oracle : Nat → Option HttpResponse) :
    Nat → List String → Option (String × String)
  | _, [] => none
  | i, u :: rest =>
    match tryFormat (oracle i) with
    | some csv => some (csv, u)
    | none => tryLoop oracle (i + 1) rest

/-- `get_sheets_data(sheet_id)`. -/
def get_sheets_data (sheet_id : String) (oracle : Nat → Option HttpResponse) :
    SheetsResult :=
  match tryLoop oracle 0 (url_formats sheet_id) with
  | some (csv, u) =>
    { success := true, csv_data := some csv, url_used := some u,
      error := none, tried_formats := none, status := 200 }
  | none =>
    { success := false, csv_data := none, url_used := none,
      error := some allFailedMsg,
      tried_formats := some (url_formats sheet_id).length, status := 500 }

/-! ## Image proxy (`proxy_image`) -/

/-- A non-raising upstream download: body bytes (opaque) and the
upstream-reported content type header, if any. -/
structure ProxyOk where
  body : String
  contentType : Option String
deriving Repr, DecidableEq

/-- Response of the `/api/proxy-image` route. -/
inductive ProxyResult where
  | ok (body : String) (contentType : String) (cacheControl : String)
      (allowOrigin : String)
  | err (message : String) (status : Nat)
deriving Repr, DecidableEq

/-- `proxy_image(file_id)`; `fetch` is the outcome of the single download
(`.error msg` for any exception, message as rendered by `str(e)`). -/
def proxy_image (_file_id : String) (fetch : Except String ProxyOk) : ProxyResult :=
  match fetch with
  | .error e => .err e 500
  | .ok r =>
    .ok r.body (r.contentType.getD "image/jpeg") "public, max-age=3600" "*"

/-! ## Status surface (`get_status`) -/

/-- `bool(GOOGLE_API_KEY and GOOGLE_API_KEY != "YOUR_API_KEY_HERE")`
(a Python string is truthy iff non-empty). -/
def api_configured (key : String) : Bool :=
  !(key == "") && !(key == "YOUR_API_KEY_HERE")

/-! ## Concrete inputs for witnesses and counterexamples -/

/-- A concrete upstream record used by witnesses and counterexamples. -/
def demoRaw : RawFile :=
  { id := "x", name := "img1.png", mimeType := "image/png", modifiedTime := "" }

/-- A small listing: two images (indices 1 and 12) and one PDF. -/
def demoFiles : List RawFile :=
  [ demoRaw,
    { id := "y", name := "b12.png", mimeType := "image/jpeg", modifiedTime := "" },
    { id := "z", name := "doc9.pdf", mimeType := "application/pdf", modifiedTime := "" } ]

/-- An HTML error page response (the dominant failure mode of 4.6). -/
def respWitHtml : HttpResponse :=
  { contentType := "text/html", statusCode := 200, encodingIsUtf8 := true,
    text := "<html>login</html>", utf8Content := none }

/-- A well-formed CSV response. -/
def respWitCsv : HttpResponse :=
  { contentType := "text/csv", statusCode := 200, encodingIsUtf8 := true,
    text := "a,b\n1,2", utf8Content := none }

/-- Attempt 0 gets the HTML page, later attempts get the CSV. -/
def oracleWit : Nat → Option HttpResponse :=
  fun i => if i = 0 then some respWitHtml else some respWitCsv

/-! ## Specification-side characterization of the index extraction -/

/-- `ds` is the first maximal run of decimal digits of `s`: `s` splits as
`pre ++ ds ++ suf` with a digit-free `pre` (first), non-empty all-digit `ds`,
and `suf` not starting with a digit (maximal). -/
def FirstRunSpec (s ds : List Char) : Prop :=
  ∃ pre suf, s = pre ++ ds ++ suf ∧ ds ≠ [] ∧ (∀ c ∈ ds, c.isDigit = true) ∧
    (∀ c ∈ pre, c.isDigit = false) ∧ (∀ c, suf.head? = some c → c.isDigit = false)

/-! ## Helper lemmas -/

theorem head_dropWhile_pred (p : Char → Bool) :
    ∀ (l : List Char) (c : Char), (l.dropWhile p).head? = some c → p c = false := by
  intro l
  induction l with
  | nil => intro c h; simp [List.dropWhile] at h
  | cons a t ih =>
    intro c h
    rw [List.dropWhile] at h
    cases hp : p a with
    | true => rw [hp] at h; exact ih c h
    | false =>
      rw [hp] at h
      simp only [List.head?] at h
      cases h
      exact hp

theorem takeWhile_append_of_all (p : Char → Bool) :
    ∀ (l1 l2 : List Char), (∀ c ∈ l1, p c = true) →
      (l1 ++ l2).takeWhile p = l1 ++ l2.takeWhile p := by
  intro l1
  induction l1 with
  | nil => intro l2 _; rfl
  | cons a t ih =>
    intro l2 hall
    have ha : p a = true := hall a (by simp)
    simp only [List.cons_append, List.takeWhile_cons, ha, if_true]
    rw [ih l2 (fun c hc => hall c (by simp [hc]))]

theorem takeWhile_eq_nil_of_head (p : Char → Bool) (l : List Char)
    (h : ∀ c, l.head? = some c → p c = false) : l.takeWhile p = [] := by
  cases l with
  | nil => rfl
  | cons a t =>
    have := h a rfl
    simp [List.takeWhile_cons, this]

theorem firstDigitRun_sound :
    ∀ (s ds : List Char), firstDigitRun s = some ds → FirstRunSpec s ds := by
  intro s
  induction s with
  | nil => intro ds h; simp [firstDigitRun] at h
  | cons c rest ih =>
    intro ds h
    rw [firstDigitRun] at h
    by_cases hc : c.isDigit
    · rw [if_pos hc] at h
      cases h
      refine ⟨[], rest.dropWhile Char.isDigit, ?_, by simp, ?_, by simp, ?_⟩
      · simp [List.takeWhile_append_dropWhile]
      · intro x hx
        rcases List.mem_cons.mp hx with h1 | h2
        · exact h1 ▸ hc
        · exact List.mem_takeWhile_imp h2
      · exact head_dropWhile_pred _ _
    · rw [if_neg hc] at h
      obtain ⟨pre, suf, hs, hne, hds, hpre, hsuf⟩ := ih ds h
      refine ⟨c :: pre, suf, by simp [hs], hne, hds, ?_, hsuf⟩
      intro x hx
      rcases List.mem_cons.mp hx with h1 | h2
      · subst h1; exact Bool.eq_false_iff.mpr hc
      · exact hpre x h2

theorem firstDigitRun_complete :
    ∀ (pre ds suf : List Char), ds ≠ [] → (∀ c ∈ ds, c.isDigit = true) →
      (∀ c ∈ pre, c.isDigit = false) → (∀ c, suf.head? = some c → c.isDigit = false) →
      firstDigitRun (pre ++ ds ++ suf) = some ds := by
  intro pre
  induction pre with
  | nil =>
    intro ds suf hne hds hpre hsuf
    cases ds with
    | nil => exact absurd rfl hne
    | cons d ds2 =>
      have hd : d.isDigit = true := hds d (by simp)
      simp only [List.nil_append, List.cons_append, firstDigitRun, hd, if_true,
        Option.some.injEq, List.cons.injEq, true_and]
      show List.takeWhile Char.isDigit (ds2 ++ suf) = ds2
      rw [takeWhile_append_of_all _ ds2 suf (fun c hc => hds c (by simp [hc]))]
      rw [takeWhile_eq_nil_of_head _ suf hsuf]
      simp
  | cons a pre2 ih =>
    intro ds suf hne hds hpre hsuf
    have ha : a.isDigit = false := hpre a (by simp)
    simp only [List.cons_append, firstDigitRun, ha, Bool.false_eq_true, if_false]
    exact ih ds suf hne hds (fun c hc => hpre c (by simp [hc])) hsuf

theorem firstDigitRun_iff (s ds : List Char) :
    firstDigitRun s = some ds ↔ FirstRunSpec s ds := by
  constructor
  · exact firstDigitRun_sound s ds
  · rintro ⟨pre, suf, hs, hne, hds, hpre, hsuf⟩
    subst hs
    exact firstDigitRun_complete pre ds suf hne hds hpre hsuf

theorem firstDigitRun_isSome (s : List Char) :
    (firstDigitRun s).isSome = s.any Char.isDigit := by
  induction s with
  | nil => rfl
  | cons c rest ih =>
    rw [firstDigitRun, List.any_cons]
    cases hc : c.isDigit <;> simp [hc, ih]

theorem digitsToNat_ofDigits_aux :
    ∀ (ds : List Char) (acc : Nat),
      ds.foldl (fun n c => 10 * n + digitVal c) acc
        = Nat.ofDigits 10 ((ds.map digitVal).reverse) + acc * 10 ^ ds.length := by
  intro ds
  induction ds with
  | nil => intro acc; simp
  | cons c t ih =>
    intro acc
    rw [List.foldl_cons, ih]
    simp only [List.map_cons, List.reverse_cons, Nat.ofDigits_append,
      List.length_reverse, List.length_map, Nat.ofDigits_cons, Nat.ofDigits_nil,
      List.length_cons, pow_succ]
    ring

/-- `digitsToNat` is decimal evaluation: `Nat.ofDigits 10` of the
little-endian digit values. -/
theorem digitsToNat_eq_ofDigits (ds : List Char) :
    digitsToNat ds = Nat.ofDigits 10 ((ds.map digitVal).reverse) := by
  rw [digitsToNat, digitsToNat_ofDigits_aux]
  simp

theorem toImage_isSome (f : RawFile) :
    (toImage f).isSome = (startsWithImage f.mimeType && f.name.data.any Char.isDigit) := by
  rw [toImage]
  cases hm : startsWithImage f.mimeType with
  | false => simp [hm]
  | true =>
    simp only [hm, if_true, Bool.true_and, extractIndex, Option.isSome_map']
    exact firstDigitRun_isSome f.name.data

theorem toImage_some_index (f : RawFile) (i : ImageFile) (h : toImage f = some i) :
    ∃ ds, FirstRunSpec f.name.data ds
      ∧ i.index = Nat.ofDigits 10 ((ds.map digitVal).reverse) := by
  rw [toImage] at h
  by_cases hm : startsWithImage f.mimeType
  · rw [if_pos hm] at h
    obtain ⟨idx, hidx, hi⟩ := Option.map_eq_some'.mp h
    obtain ⟨ds, hds, hval⟩ := Option.map_eq_some'.mp hidx
    refine ⟨ds, (firstDigitRun_iff _ _).mp hds, ?_⟩
    rw [← hi, mkImageFile, ← hval, digitsToNat_eq_ofDigits]
  · rw [if_neg hm] at h
    exact absurd h (by simp)

theorem startsWithImage_iff (mt : String) :
    startsWithImage mt = true ↔ "image/".data <+: mt.data := by
  rw [startsWithImage]
  exact List.isPrefixOf_iff_prefix

theorem foldl_mapping (l : List ImageFile) (init : Nat → Option ImageProj) (n : Nat) :
    l.foldl (fun m f => fun k => if k = f.index then some (mkProj f) else m k) init n
      = ((l.filter (fun f => f.index == n)).getLast?).elim (init n)
          (fun f => some (mkProj f)) := by
  induction l using List.reverseRecOn with
  | nil => simp
  | append_singleton t f ih =>
    simp only [List.foldl_append, List.foldl_cons, List.foldl_nil, List.filter_append]
    by_cases hq : f.index = n
    · have hf : List.filter (fun g => g.index == n) [f] = [f] := by simp [hq]
      rw [hf, List.getLast?_concat, if_pos hq.symm]
      rfl
    · have hf : List.filter (fun g => g.index == n) [f] = [] := by simp [hq]
      rw [hf, List.append_nil, if_neg (fun hc => hq hc.symm)]
      exact ih

theorem buildMapping_eq_getLast (l : List ImageFile) (n : Nat) :
    buildMapping l n
      = ((l.filter (fun f => f.index == n)).getLast?).elim none
          (fun f => some (mkProj f)) :=
  foldl_mapping l (fun _ => none) n

theorem filter_orderedInsert_idx (n : Nat) (a : ImageFile) (l : List ImageFile) :
    (l.orderedInsert idxLe a).filter (fun f => f.index == n)
      = if a.index == n then a :: l.filter (fun f => f.index == n)
        else l.filter (fun f => f.index == n) := by
  induction l with
  | nil => cases ha : (a.index == n) <;> simp [List.orderedInsert, ha]
  | cons b t ih =>
    rw [List.orderedInsert]
    by_cases hab : idxLe a b
    · rw [if_pos hab]
      by_cases ha : a.index = n <;> simp [ha, List.filter_cons]
    · rw [if_neg hab, List.filter_cons, ih]
      by_cases ha : a.index = n <;> by_cases hb : b.index = n
      · exact absurd (show idxLe a b by rw [idxLe, ha, hb]) hab
      · simp [ha, hb, List.filter_cons]
      · simp [ha, hb, List.filter_cons]
      · simp [ha, hb, List.filter_cons]

theorem filter_insertionSort_idx (n : Nat) (l : List ImageFile) :
    (List.insertionSort idxLe l).filter (fun f => f.index == n)
      = l.filter (fun f => f.index == n) := by
  induction l with
  | nil => rfl
  | cons a t ih =>
    rw [List.insertionSort, filter_orderedInsert_idx, List.filter_cons]
    cases ha : (a.index == n) <;> simp [ha, ih]

theorem cacheHit_ne_folder (c : Cache) (f : String) (t : Int)
    (h : c.folder_id ≠ some f) : cacheHit c f t = false := by
  rw [cacheHit]
  have hb : (c.folder_id == some f) = false := by simp [h]
  rw [hb]
  simp

theorem discover_ok_folder (f : String) (t : Int)
    (upstream : Except String (List RawFile)) (c : Cache)
    (h : (discover_images f t upstream c).response.isOk = true) :
    (discover_images f t upstream c).cache.folder_id = some f := by
  by_cases hf : f = ""
  · subst hf
    simp [discover_images, DiscoverResult.isOk] at h
  · rw [discover_images, if_neg hf] at h ⊢
    by_cases hhit : cacheHit c f t = true
    · have hfold : c.folder_id = some f := by
        rw [cacheHit] at hhit
        have := (Bool.and_eq_true _ _).mp hhit
        have h2 := (Bool.and_eq_true _ _).mp this.1
        exact beq_iff_eq.mp h2.2
      cases hd : c.data with
      | none => simp [get_drive_files, hhit, hd, DiscoverResult.isOk] at h
      | some l => simp [get_drive_files, hhit, hd, hfold]
    · have hmiss : cacheHit c f t = false := by
        cases hcb : cacheHit c f t
        · rfl
        · exact absurd hcb hhit
      cases upstream with
      | error e => simp [get_drive_files, hmiss, DiscoverResult.isOk] at h
      | ok files => simp [get_drive_files, hmiss]

theorem discover_usedUpstream_of_miss (f : String) (hf : f ≠ "") (t : Int)
    (upstream : Except String (List RawFile)) (c : Cache)
    (hmiss : cacheHit c f t = false) :
    (discover_images f t upstream c).usedUpstream = true := by
  cases upstream <;> simp [discover_images, hf, get_drive_files, hmiss]

/-! ## Claims -/

/-- C5: for an empty folder id, `discover_images` returns the 400
validation-error envelope, touches neither the cache nor the upstream
service (the cache is returned exactly as given, no upstream call is
made), for every time, upstream oracle and cache state. -/
theorem c5_empty_folder_fail_fast (t : Int)
    (upstream : Except String (List RawFile)) (c : Cache) :
    discover_images "" t upstream c =
      { response := .err noFolderMsg 400, cache := c, usedUpstream := false } :=
  rfl

/-- C9 counterexample: the empty credential (environment variable set but
blank) yields `api_configured = false` although it differs from the
placeholder string, refuting "true for every other credential value". -/
theorem c9_empty_key_counterexample :
    api_configured "" = false ∧ ("" : String) ≠ "YOUR_API_KEY_HERE" := by
  constructor
  · rfl
  · decide

/-- C9 (amended): `api_configured` is `false` exactly when the credential
is the placeholder `YOUR_API_KEY_HERE` or the empty string, and `true`
otherwise. -/
theorem c9_api_configured (key : String) :
    api_configured key = false ↔ (key = "YOUR_API_KEY_HERE" ∨ key = "") := by
  rw [api_configured]
  constructor
  · intro h
    by_cases h1 : key = ""
    · exact Or.inr h1
    · left
      by_contra h2
      have e1 : (key == "") = false := by simp [h1]
      have e2 : (key == "YOUR_API_KEY_HERE") = false := by simp [h2]
      rw [e1, e2] at h
      simp at h
  · rintro (h | h) <;> simp [h]

/-- C9 witness: the theorem applied at the placeholder credential. -/
theorem c9_api_configured_witness :
    api_configured "YOUR_API_KEY_HERE" = false :=
  (c9_api_configured "YOUR_API_KEY_HERE").mpr (Or.inl rfl)

/-- C10: when the upstream listing call is actually made (cache miss) and
fails, `get_drive_files` returns the failure sentinel `none` and the cache
record is exactly the one before the call (all three fields unchanged). -/
theorem c10_cache_atomic_on_error (f : String) (t : Int) (e : String)
    (c : Cache) (hmiss : cacheHit c f t = false) :
    get_drive_files f t (.error e) c =
      { result := none, cache := c, usedUpstream := true } := by
  simp [get_drive_files, hmiss]

/-- C10 witness: the theorem applied at a concrete failing fetch. -/
theorem c10_cache_atomic_on_error_witness :
    get_drive_files "folder" 0 (.error "boom") initialCache =
      { result := none, cache := initialCache, usedUpstream := true } :=
  c10_cache_atomic_on_error "folder" 0 "boom" initialCache (by decide)

/-- C7: `get_sheets_data` is total (always yields a `SheetsResult`, either
a success or the aggregate failure record), and when all four template
attempts fail it returns the fixed failure result: `success = false`, the
error message naming that all formats failed (it contains `All`), and
`tried_formats = 4` — independent of which specific errors occurred. -/
theorem c7_all_templates_fail (sheet_id : String)
    (oracle : Nat → Option HttpResponse)
    (hall : ∀ j, j < 4 → tryFormat (oracle j) = none) :
    get_sheets_data sheet_id oracle =
      { success := false, csv_data := none, url_used := none,
        error := some allFailedMsg, tried_formats := some 4, status := 500 }
  ∧ listContainsSub "All".data allFailedMsg.data = true
  ∧ ∀ oracle2 : Nat → Option HttpResponse,
      (get_sheets_data sheet_id oracle2).success = true
      ∨ get_sheets_data sheet_id oracle2 =
        { success := false, csv_data := none, url_used := none,
          error := some allFailedMsg, tried_formats := some 4, status := 500 } := by
  refine ⟨?_, by decide, ?_⟩
  · have h0 := hall 0 (by omega)
    have h1 := hall 1 (by omega)
    have h2 := hall 2 (by omega)
    have h3 := hall 3 (by omega)
    simp [get_sheets_data, url_formats, tryLoop, h0, h1, h2, h3]
  · intro oracle2
    rw [get_sheets_data]
    cases htry : tryLoop oracle2 0 (url_formats sheet_id) with
    | some p =>
      left
      rfl
    | none =>
      right
      rfl

/-- C7 witness: the theorem applied to an oracle whose every attempt
raises. -/
theorem c7_all_templates_fail_witness :
    get_sheets_data "S" (fun _ => none) =
      { success := false, csv_data := none, url_used := none,
        error := some allFailedMsg, tried_formats := some 4, status := 500 } :=
  (c7_all_templates_fail "S" (fun _ => none) (fun _ _ => rfl)).1

/-- C3: the filter/index step keeps exactly the records whose mime type
starts with `image/` and whose name contains a decimal digit (others are
silently dropped, never an error); each kept record's `index` is the
decimal value of the first maximal digit run of its name; the output is a
permutation of those projections, sorted ascending by index, and stable:
records of any fixed index appear in their original upstream order. -/
theorem c3_filter_index_sort (files : List RawFile) :
    List.Perm (filterAndIndex files) (files.filterMap toImage)
  ∧ List.Sorted idxLe (filterAndIndex files)
  ∧ (∀ n, (filterAndIndex files).filter (fun f => f.index == n)
        = (files.filterMap toImage).filter (fun f => f.index == n))
  ∧ (∀ f : RawFile, (toImage f).isSome
        = (startsWithImage f.mimeType && f.name.data.any Char.isDigit))
  ∧ (∀ mt : String, startsWithImage mt = true ↔ "image/".data <+: mt.data)
  ∧ (∀ (f : RawFile) (i : ImageFile), toImage f = some i →
        ∃ ds, FirstRunSpec f.name.data ds
          ∧ i.index = Nat.ofDigits 10 ((ds.map digitVal).reverse)) := by
  refine ⟨?_, ?_, ?_, toImage_isSome, startsWithImage_iff, toImage_some_index⟩
  · exact List.perm_insertionSort idxLe (filterImages files)
  · exact List.sorted_insertionSort idxLe (filterImages files)
  · intro n
    exact filter_insertionSort_idx n (filterImages files)

/-- C3 witness: stability conjunct of the theorem at a concrete listing
and index. -/
theorem c3_filter_index_sort_witness :
    (filterAndIndex demoFiles).filter (fun f => f.index == 1)
      = (demoFiles.filterMap toImage).filter (fun f => f.index == 1) :=
  (c3_filter_index_sort demoFiles).2.2.1 1

/-- C2: when records `A` then `B` (in that upstream order) both pass the
image filter with the same extracted index `n`, and no later record claims
`n`, the discovery result's `images` mapping at `n` is `B`'s projection
(the later record in upstream order), not `A`'s. -/
theorem c2_mapping_last_wins (p m s : List RawFile) (A B : RawFile)
    (iA iB : ImageFile) (n : Nat)
    (hA : toImage A = some iA) (hAn : iA.index = n)
    (hB : toImage B = some iB) (hBn : iB.index = n)
    (hs : ∀ f ∈ s, ∀ i, toImage f = some i → i.index ≠ n)
    (folder : String) (hf : folder ≠ "") (now : Int) (c : Cache)
    (hmiss : cacheHit c folder now = false) :
    (discover_images folder now (.ok (p ++ A :: m ++ B :: s)) c).response.images
        = some (buildMapping (filterAndIndex (p ++ A :: m ++ B :: s)))
  ∧ buildMapping (filterAndIndex (p ++ A :: m ++ B :: s)) n = some (mkProj iB)
  ∧ (mkProj iA ≠ mkProj iB →
      buildMapping (filterAndIndex (p ++ A :: m ++ B :: s)) n ≠ some (mkProj iA)) := by
  have hmain : buildMapping (filterAndIndex (p ++ A :: m ++ B :: s)) n
      = some (mkProj iB) := by
    rw [buildMapping_eq_getLast]
    show ((List.insertionSort idxLe
      (filterImages (p ++ A :: m ++ B :: s))).filter
        (fun f => f.index == n)).getLast?.elim none (fun f => some (mkProj f))
      = some (mkProj iB)
    rw [filter_insertionSort_idx]
    have hfi : filterImages (p ++ A :: m ++ B :: s)
        = filterImages p ++ iA :: (filterImages m ++ iB :: filterImages s) := by
      simp [filterImages, List.filterMap_append, List.filterMap_cons, hA, hB]
    rw [hfi]
    have hZ : (filterImages s).filter (fun f => f.index == n) = [] := by
      rw [List.filter_eq_nil_iff]
      intro i hi
      obtain ⟨f, hfmem, hfi2⟩ := List.mem_filterMap.mp hi
      simp [hs f hfmem i hfi2]
    have hqA : (iA.index == n) = true := by simp [hAn]
    have hqB : (iB.index == n) = true := by simp [hBn]
    rw [List.filter_append, List.filter_cons, if_pos hqA, List.filter_append,
      List.filter_cons, if_pos hqB, hZ]
    have hshape :
        (filterImages p).filter (fun f => f.index == n)
          ++ iA :: ((filterImages m).filter (fun f => f.index == n) ++ iB :: [])
        = ((filterImages p).filter (fun f => f.index == n)
            ++ iA :: (filterImages m).filter (fun f => f.index == n)) ++ [iB] := by
      simp
    rw [hshape, List.getLast?_concat]
    rfl
  refine ⟨?_, hmain, ?_⟩
  · simp [discover_images, hf, get_drive_files, hmiss, DiscoverResult.images]
  · intro hne hcontra
    rw [hmain] at hcontra
    exact hne (Option.some.inj hcontra).symm

/-- C2 witness: the theorem applied to a two-record listing sharing
index 3. -/
theorem c2_mapping_last_wins_witness :
    buildMapping (filterAndIndex
        [ { id := "a", name := "x3.png", mimeType := "image/png",
            modifiedTime := "" },
          { id := "b", name := "y3.png", mimeType := "image/png",
            modifiedTime := "" } ]) 3
      = some (mkProj (mkImageFile
          { id := "b", name := "y3.png", mimeType := "image/png",
            modifiedTime := "" } 3)) :=
  (c2_mapping_last_wins [] [] []
    { id := "a", name := "x3.png", mimeType := "image/png", modifiedTime := "" }
    { id := "b", name := "y3.png", mimeType := "image/png", modifiedTime := "" }
    (mkImageFile
      { id := "a", name := "x3.png", mimeType := "image/png", modifiedTime := "" } 3)
    (mkImageFile
      { id := "b", name := "y3.png", mimeType := "image/png", modifiedTime := "" } 3)
    3 (by decide) (by decide) (by decide) (by decide) (by simp)
    "folder" (by decide) 0 initialCache (by decide)).2.1

/-- C1 counterexample: with an empty upstream listing, the first
`discover` call succeeds (empty `images` mapping) and stores `data = []`,
but `[]` is falsy in the cache-hit check, so the second call one second
later performs a second upstream listing call — refuting the unrestricted
cache-hit claim. -/
theorem c1_empty_result_counterexample :
    (discover_images "folder" 0 (Except.ok []) initialCache).response.isOk = true
  ∧ ((0 : Int) ≤ 1 ∧ (1 : Int) - 0 < 30)
  ∧ (discover_images "folder" 1 (Except.ok [])
        (discover_images "folder" 0 (Except.ok []) initialCache).cache).usedUpstream
      = true := by
  refine ⟨rfl, ⟨by decide, by decide⟩, rfl⟩

/-- C1 (amended): if a `discover(f)` call succeeds via a fresh upstream
fetch that yields at least one image record, then a second `discover(f)`
call strictly less than 30 seconds later returns an identical `images`
mapping, succeeds, and performs no upstream listing call, whatever its
oracle would have answered. -/
theorem c1_ttl_cache_hit (f : String) (c0 : Cache) (t0 t1 : Int)
    (files : List RawFile) (oracle2 : Except String (List RawFile))
    (hf : f ≠ "") (hmiss : cacheHit c0 f t0 = false)
    (hne : filterAndIndex files ≠ [])
    (_hle : t0 ≤ t1) (httl : t1 - t0 < 30) :
    (discover_images f t1 oracle2
        (discover_images f t0 (.ok files) c0).cache).usedUpstream = false
  ∧ (discover_images f t1 oracle2
        (discover_images f t0 (.ok files) c0).cache).response.images
      = (discover_images f t0 (.ok files) c0).response.images
  ∧ (discover_images f t1 oracle2
        (discover_images f t0 (.ok files) c0).cache).response.isOk = true := by
  have hc1 : (discover_images f t0 (.ok files) c0).cache
      = { data := some (filterAndIndex files), timestamp := t0,
          folder_id := some f } := by
    simp [discover_images, hf, get_drive_files, hmiss]
  have hr1 : (discover_images f t0 (.ok files) c0).response.images
      = some (buildMapping (filterAndIndex files)) := by
    simp [discover_images, hf, get_drive_files, hmiss, DiscoverResult.images]
  have hhit : cacheHit
      { data := some (filterAndIndex files), timestamp := t0,
        folder_id := some f } f t1 = true := by
    simp [cacheHit, cacheDataTruthy, CACHE_DURATION, httl,
      List.isEmpty_iff, hne]
  rw [hc1, hr1]
  refine ⟨?_, ?_, ?_⟩ <;>
    simp [discover_images, hf, get_drive_files, hhit, cacheDataTruthy,
      DiscoverResult.images, DiscoverResult.isOk]

/-- C1 witness: the amended theorem applied to a one-image listing, the
second call one second after the first with a failing oracle. -/
theorem c1_ttl_cache_hit_witness :
    (discover_images "folder" 1 (.error "down")
        (discover_images "folder" 0 (.ok [demoRaw]) initialCache).cache).usedUpstream
      = false
  ∧ (discover_images "folder" 1 (.error "down")
        (discover_images "folder" 0 (.ok [demoRaw]) initialCache).cache).response.images
      = (discover_images "folder" 0 (.ok [demoRaw]) initialCache).response.images
  ∧ (discover_images "folder" 1 (.error "down")
        (discover_images "folder" 0 (.ok [demoRaw]) initialCache).cache).response.isOk
      = true :=
  c1_ttl_cache_hit "folder" initialCache 0 1 [demoRaw] (.error "down")
    (by decide) (by decide) (by decide) (by decide) (by decide)

/-- C4 counterexample: in `discover(f1); discover(f2); discover(f1)` with
`f1 ≠ f2`, when the middle call's upstream fetch fails the cache still
holds `f1`'s fresh entry, so the final `discover(f1)` is served from the
cache and performs no fresh upstream call — refuting "always forces a
fresh upstream call". -/
theorem c4_failed_refetch_counterexample :
    ("a" : String) ≠ "b"
  ∧ (discover_images "a" 0 (Except.ok [demoRaw]) initialCache).response.isOk = true
  ∧ (discover_images "b" 1 (Except.error "down")
        (discover_images "a" 0 (Except.ok [demoRaw]) initialCache).cache).response.isOk
      = false
  ∧ (discover_images "a" 2 (Except.ok [])
        (discover_images "b" 1 (Except.error "down")
          (discover_images "a" 0 (Except.ok [demoRaw]) initialCache).cache).cache).usedUpstream
      = false := by
  refine ⟨by decide, rfl, rfl, rfl⟩

/-- C4 (amended): the cache is a single slot — a lookup for a folder id
other than the stored one always misses, TTL notwithstanding; and in
`discover(f1); discover(f2); discover(f1)` with `f1 ≠ f2`, provided the
`discover(f2)` call succeeds, the final `discover(f1)` always performs a
fresh upstream listing call. -/
theorem c4_single_slot_eviction (f1 f2 : String) (c0 : Cache)
    (t0 t1 t2 : Int) (or0 or1 or2 : Except String (List RawFile))
    (hne : f1 ≠ f2) (hf1 : f1 ≠ "") :
    (∀ (c : Cache) (t : Int), c.folder_id ≠ some f1 → cacheHit c f1 t = false)
  ∧ ((discover_images f2 t1 or1
        (discover_images f1 t0 or0 c0).cache).response.isOk = true →
      (discover_images f1 t2 or2
        (discover_images f2 t1 or1
          (discover_images f1 t0 or0 c0).cache).cache).usedUpstream = true) := by
  refine ⟨fun c t h => cacheHit_ne_folder c f1 t h, ?_⟩
  intro hok
  have hfold := discover_ok_folder f2 t1 or1
    (discover_images f1 t0 or0 c0).cache hok
  have hneq : (discover_images f2 t1 or1
      (discover_images f1 t0 or0 c0).cache).cache.folder_id ≠ some f1 := by
    rw [hfold]
    intro hc
    exact hne (Option.some.inj hc).symm
  exact discover_usedUpstream_of_miss f1 hf1 t2 or2 _
    (cacheHit_ne_folder _ f1 t2 hneq)

/-- C4 witness: the amended theorem applied to the concrete sequence
`discover("a"); discover("b"); discover("a")` with all fetches
succeeding. -/
theorem c4_single_slot_eviction_witness :
    (discover_images "a" 2 (Except.ok [])
      (discover_images "b" 1 (Except.ok [demoRaw])
        (discover_images "a" 0 (Except.ok [demoRaw]) initialCache).cache).cache).usedUpstream
      = true :=
  (c4_single_slot_eviction "a" "b" initialCache 0 1 2
    (.ok [demoRaw]) (.ok [demoRaw]) (.ok [])
    (by decide) (by decide)).2 (by decide)

/-- C8 counterexample: a listing-fetch failure with message `boom` is
answered by `discover_images` with the fixed envelope
`Failed to fetch files from Google Drive` / 500, which does not contain
the failing error's message — refuting the claim for the listing path. -/
theorem c8_listing_message_counterexample :
    (discover_images "f" 0 (Except.error "boom") initialCache).usedUpstream = true
  ∧ (discover_images "f" 0 (Except.error "boom") initialCache).response.errInfo
      = some (fetchFailMsg, 500)
  ∧ listContainsSub "boom".data fetchFailMsg.data = false := by
  refine ⟨rfl, rfl, by decide⟩

/-- C8 (amended): an image-proxy fetch failure yields a 500 envelope
carrying the failing error's message verbatim, while an upstream listing
failure yields a 500 envelope with the fixed message
`Failed to fetch files from Google Drive` (the underlying error's message
is dropped). -/
theorem c8_error_envelope :
    (∀ fid e : String, proxy_image fid (.error e) = .err e 500)
  ∧ (∀ (f e : String) (t : Int) (c : Cache), f ≠ "" → cacheHit c f t = false →
      (discover_images f t (.error e) c).response.errInfo
          = some (fetchFailMsg, 500)
      ∧ (discover_images f t (.error e) c).usedUpstream = true) := by
  constructor
  · intro fid e
    rfl
  · intro f e t c hf hmiss
    constructor <;>
      simp [discover_images, hf, get_drive_files, hmiss, DiscoverResult.errInfo]

/-- C8 witness: the amended theorem applied at concrete failures of both
paths. -/
theorem c8_error_envelope_witness :
    proxy_image "x" (Except.error "oops") = ProxyResult.err "oops" 500
  ∧ (discover_images "g" 0 (Except.error "down") initialCache).response.errInfo
      = some (fetchFailMsg, 500) :=
  ⟨c8_error_envelope.1 "x" "oops",
    (c8_error_envelope.2 "g" "down" 0 initialCache (by decide) (by decide)).1⟩

/-- C6: `get_sheets_data` tries the four URL templates strictly in order;
if attempts before `k` all fail and attempt `k`'s response is not
HTML-typed, does not have a failing HTTP status, and decodes to text that
looks like CSV, the result is success with `csv_data` the decoded text and
`url_used` the `k`-th template's URL; and the outcome is unchanged under
any reassignment of the oracle beyond index `k` (later templates are never
attempted). -/
theorem c6_first_template_success (sheet_id : String)
    (oracle : Nat → Option HttpResponse) (k : Nat) (resp : HttpResponse)
    (hk : k < 4)
    (hresp : oracle k = some resp)
    (hhtml : htmlTyped resp = false)
    (hstatus : statusFailed resp = false)
    (hcsv : csvLooking (decodeCsvText resp) = true)
    (hprev : ∀ j, j < k → tryFormat (oracle j) = none) :
    get_sheets_data sheet_id oracle =
      { success := true, csv_data := some (decodeCsvText resp),
        url_used := some ((url_formats sheet_id).getD k ""),
        error := none, tried_formats := none, status := 200 }
  ∧ ∀ oracle2 : Nat → Option HttpResponse,
      (∀ j, j ≤ k → oracle2 j = oracle j) →
        get_sheets_data sheet_id oracle2 = get_sheets_data sheet_id oracle := by
  have hkhit : tryFormat (oracle k) = some (decodeCsvText resp) := by
    simp [tryFormat, hresp, hhtml, hstatus, hcsv]
  constructor
  · interval_cases k
    · simp [get_sheets_data, url_formats, tryLoop, hkhit]
    · simp [get_sheets_data, url_formats, tryLoop, hkhit,
        hprev 0 (by omega)]
    · simp [get_sheets_data, url_formats, tryLoop, hkhit,
        hprev 0 (by omega), hprev 1 (by omega)]
    · simp [get_sheets_data, url_formats, tryLoop, hkhit,
        hprev 0 (by omega), hprev 1 (by omega), hprev 2 (by omega)]
  · intro oracle2 hagree
    have e2 : ∀ j, j ≤ k → tryFormat (oracle2 j) = tryFormat (oracle j) :=
      fun j hj => by rw [hagree j hj]
    interval_cases k
    · simp [get_sheets_data, url_formats, tryLoop, hkhit,
        e2 0 (by omega)]
    · simp [get_sheets_data, url_formats, tryLoop, hkhit,
        hprev 0 (by omega), e2 0 (by omega), e2 1 (by omega)]
    · simp [get_sheets_data, url_formats, tryLoop, hkhit,
        hprev 0 (by omega), hprev 1 (by omega),
        e2 0 (by omega), e2 1 (by omega), e2 2 (by omega)]
    · simp [get_sheets_data, url_formats, tryLoop, hkhit,
        hprev 0 (by omega), hprev 1 (by omega), hprev 2 (by omega),
        e2 0 (by omega), e2 1 (by omega), e2 2 (by omega), e2 3 (by omega)]

/-- C6 witness: template 1 serves an HTML page, template 2 serves
`a,b\n1,2`; the fetch succeeds with template 2's URL and templates 3 and 4
are never consulted. -/
theorem c6_first_template_success_witness :
    get_sheets_data "SHEET" oracleWit =
      { success := true, csv_data := some (decodeCsvText respWitCsv),
        url_used := some ((url_formats "SHEET").getD 1 ""),
        error := none, tried_formats := none, status := 200 } :=
  (c6_first_template_success "SHEET" oracleWit 1 respWitCsv
    (by decide) rfl (by decide) (by decide) (by decide)
    (fun j hj => by
      have hj0 : j = 0 := Nat.lt_one_iff.mp hj
      subst hj0
      decide)).1
